import Mathlib

/-!
Verification of the download-proxy subsystem of a yt-dlp web front end.

The TypeScript sources are shallowly embedded: pure helpers become Lean
functions, the mutable in-memory stores (progress store, cookies cache,
rate limiter, active-downloads table) become explicit state passed through
functions, and the retry state machines of the download route handlers
become recursive functions over an injected per-attempt outcome.
File-system and network effects are modelled by explicit parameters
(for example a Bool for `fs.existsSync`, an outcome value for an HTTP
fetch) and by recording emitted effects in a trace list.
-/

namespace YtDl

/-! ## Character-list string helpers

The TypeScript sources use `String.prototype.includes`, `startsWith`,
`trim` and regular expressions.  These are embedded as structural
recursions over `List Char` so that every definition evaluates by
kernel reduction. -/

/-- listStarts pat l is true when pat is a leading segment of l
(embeds JavaScript startsWith on the character level). -/
def listStarts : List Char → List Char → Bool
  | [], _ => true
  | _ :: _, [] => false
  | p :: ps, c :: cs => p == c && listStarts ps cs

/-- subOccursL pat l is true when pat occurs contiguously inside l
(embeds JavaScript String.prototype.includes). -/
def subOccursL (pat : List Char) : List Char → Bool
  | [] => listStarts pat []
  | c :: cs => listStarts pat (c :: cs) || subOccursL pat cs

/-- strContains s pat embeds JavaScript s.includes(pat). -/
def strContains (s pat : String) : Bool :=
  subOccursL pat.toList s.toList

/-- strStarts s pat embeds JavaScript s.startsWith(pat). -/
def strStarts (s pat : String) : Bool :=
  listStarts pat.toList s.toList

/-- jsWhitespace c is true for the characters removed by
JavaScript String.prototype.trim (the ones relevant here). -/
def jsWhitespace (c : Char) : Bool :=
  c == ' ' || c == '\t' || c == '\n' || c == '\r'

/-- strTrim s embeds JavaScript s.trim(). -/
def strTrim (s : String) : String :=
  ⟨((s.toList.dropWhile jsWhitespace).reverse.dropWhile jsWhitespace).reverse⟩

/-- digitsToNat ds reads a list of decimal digit characters as a number. -/
def digitsToNat (ds : List Char) : ℕ :=
  ds.foldl (fun n c => n * 10 + (c.toNat - 48)) 0

/-- restAfter pat l returns the suffix of l after the first occurrence of
pat, when pat occurs in l. -/
def restAfter (pat : List Char) : List Char → Option (List Char)
  | [] => if listStarts pat [] then some [] else none
  | c :: cs =>
    if listStarts pat (c :: cs) then some ((c :: cs).drop pat.length)
    else restAfter pat cs

/-! ## Progress store (src/lib/progress-store.ts, v5.1.0)

The store is a `Map<string, {...}>` keyed by download id.  It is embedded
as a function from ids to optional snapshots. -/

/-- Snapshot is the per-download record held by downloadProgressStore
(progress-store.ts v5.1.0, including the corruption-tracking fields). -/
structure Snapshot where
  progress : ℚ
  message : String
  phase : String
  speed : Option String := none
  eta : Option String := none
  error : Option String := none
  completed : Bool
  fileReady : Bool
  filePath : Option String := none
  isCorruption : Option Bool := none
  suggestion : Option String := none
  attempt : Option ℕ := none
  deriving Repr, DecidableEq

/-- SnapshotUpdate is the Partial<...> argument of updateProgress: a field
that is none is absent from the update object. -/
structure SnapshotUpdate where
  progress : Option ℚ := none
  message : Option String := none
  phase : Option String := none
  speed : Option String := none
  eta : Option String := none
  error : Option String := none
  completed : Option Bool := none
  fileReady : Option Bool := none
  filePath : Option String := none
  isCorruption : Option Bool := none
  suggestion : Option String := none
  attempt : Option ℕ := none
  deriving Repr, DecidableEq

/-- defaultSnapshot is the record created by updateProgress when no entry
exists for the id yet. -/
def defaultSnapshot : Snapshot :=
  { progress := 0
    message := "Initializing..."
    phase := "preparing"
    completed := false
    fileReady := false }

/-- mergeSnapshot embeds the JavaScript spread { ...existing, ...data }:
every field present in the update wins, every absent field keeps the
existing value. -/
def mergeSnapshot (existing : Snapshot) (u : SnapshotUpdate) : Snapshot :=
  { progress := u.progress.getD existing.progress
    message := u.message.getD existing.message
    phase := u.phase.getD existing.phase
    speed := u.speed.orElse fun _ => existing.speed
    eta := u.eta.orElse fun _ => existing.eta
    error := u.error.orElse fun _ => existing.error
    completed := u.completed.getD existing.completed
    fileReady := u.fileReady.getD existing.fileReady
    filePath := u.filePath.orElse fun _ => existing.filePath
    isCorruption := u.isCorruption.orElse fun _ => existing.isCorruption
    suggestion := u.suggestion.orElse fun _ => existing.suggestion
    attempt := u.attempt.orElse fun _ => existing.attempt }

/-- ProgressStore is the in-memory Map of progress-store.ts. -/
def ProgressStore := String → Option Snapshot

/-- emptyProgressStore is the store before any write. -/
def emptyProgressStore : ProgressStore := fun _ => none

/-- updateProgress embeds progress-store.ts updateProgress: read the entry
(or the default), merge the partial update over it, and set it back. -/
def updateProgress (store : ProgressStore) (downloadId : String)
    (data : SnapshotUpdate) : ProgressStore :=
  fun k =>
    if k = downloadId then
      some (mergeSnapshot ((store downloadId).getD defaultSnapshot) data)
    else store k

/-- clearProgress embeds progress-store.ts clearProgress (Map.delete). -/
def clearProgress (store : ProgressStore) (downloadId : String) : ProgressStore :=
  fun k => if k = downloadId then none else store k

/-- getProgress embeds progress-store.ts getProgress (Map.get). -/
def getProgress (store : ProgressStore) (downloadId : String) : Option Snapshot :=
  store downloadId

/-! ## Rate limiter (src/lib/ytdlp.ts, checkRateLimit)

The in-memory rateLimitMap becomes a function from ip to an optional
record; Date.now() becomes an explicit now parameter. -/

/-- RateRec is the per-ip record of the rate limiter. -/
structure RateRec where
  count : ℕ
  resetTime : ℕ
  deriving Repr, DecidableEq

/-- RateState is the in-memory rateLimitMap. -/
def RateState := String → Option RateRec

/-- RATE_LIMIT from ytdlp.ts: 10 requests. -/
def RATE_LIMIT : ℕ := 10

/-- RATE_WINDOW from ytdlp.ts: one minute in milliseconds. -/
def RATE_WINDOW : ℕ := 60000

/-- checkRateLimit embeds ytdlp.ts checkRateLimit: reset the record when
absent or expired, reject when the count reached the limit, otherwise
count the call. -/
def checkRateLimit (st : RateState) (ip : String) (now : ℕ) :
    Bool × RateState :=
  match st ip with
  | none =>
    (true, fun k => if k = ip then some ⟨1, now + RATE_WINDOW⟩ else st k)
  | some r =>
    if r.resetTime < now then
      (true, fun k => if k = ip then some ⟨1, now + RATE_WINDOW⟩ else st k)
    else if RATE_LIMIT ≤ r.count then
      (false, st)
    else
      (true, fun k => if k = ip then some ⟨r.count + 1, r.resetTime⟩ else st k)

/-- rlRun folds checkRateLimit over a list of call times for one ip. -/
def rlRun (st : RateState) (ip : String) : List ℕ → List Bool × RateState
  | [] => ([], st)
  | t :: ts =>
    let p := checkRateLimit st ip t
    let q := rlRun p.2 ip ts
    (p.1 :: q.1, q.2)

/-! ## Progress parsing and the v5.0.0 download route
(src/app/api/download/route.ts)

The stderr chunks of the yt-dlp subprocess are abstracted by which of the
disjoint patterns of parseProgress they match; the retry loop of POST
becomes a recursive function over injected per-attempt outcomes, emitting
the spawn / progress-write / history effects it performs. -/

/-- jsRound embeds JavaScript Math.round (half away from zero is
irrelevant here: inputs are nonnegative, halves round up). -/
def jsRound (p : ℚ) : ℤ := ⌊p + 1 / 2⌋

/-- qmin embeds JavaScript Math.min on two rationals. -/
def qmin (a b : ℚ) : ℚ := if a ≤ b then a else b

/-- StderrEv abstracts one stderr data chunk by the parseProgress pattern
it matches: a download percent line, a merger or ffmpeg line, a
destination line, or anything else. -/
inductive StderrEv
  | pct (p : ℚ)
  | merger
  | dest
  | other
  deriving Repr, DecidableEq

/-- parseProgress500 embeds parseProgress of download/route.ts v5.0.0:
download percents are scaled by 0.9 and capped at 90, merger lines map
to 92, destination lines to 5. -/
def parseProgress500 : StderrEv → Option (ℚ × String × String)
  | .pct p => some (qmin (p * (9 / 10)) 90,
      "Downloading: " ++ toString (jsRound p) ++ "%", "downloading")
  | .merger => some (92, "Merging video and audio...", "merging")
  | .dest => some (5, "Starting download...", "downloading")
  | .other => none

/-- Effect is an entry of the observable effect trace of the v5.0.0
download route: a subprocess spawn, a progress-store write, or a history
append. -/
inductive Effect
  | spawn
  | write (id : String) (u : SnapshotUpdate)
  | history (success : Bool)
  deriving Repr, DecidableEq

/-- stderrFold500 embeds the stderr data handler of executeDownload
(v5.0.0): a parsed progress strictly above lastProgress is written to the
progress store and becomes the new lastProgress. -/
def stderrFold500 (cid : String) (last : ℚ) : List StderrEv → List Effect
  | [] => []
  | e :: rest =>
    match parseProgress500 e with
    | some info =>
      if last < info.1 then
        Effect.write cid
            { progress := some info.1, message := some info.2.1,
              phase := some info.2.2 } :: stderrFold500 cid info.1 rest
      else stderrFold500 cid last rest
    | none => stderrFold500 cid last rest

/-- AttemptResult500 is the value executeDownload (v5.0.0) resolves with. -/
structure AttemptResult500 where
  success : Bool
  error : String := ""
  isBotDetection : Bool := false
  deriving Repr, DecidableEq

/-- Attempt500 is the injected behaviour of one download attempt: the
stderr chunks observed, then the resolved result. -/
structure Attempt500 where
  stderr : List StderrEv := []
  result : AttemptResult500
  deriving Repr, DecidableEq

/-- RouteResult is the observable outcome of one POST invocation: its
effect trace, HTTP status, and how many attempts ran. -/
structure RouteResult where
  trace : List Effect
  status : ℕ
  attempts : ℕ
  deriving Repr, DecidableEq

/-- attemptPrepUpdate is the progress write at the top of each iteration
of the v5.0.0 retry loop. -/
def attemptPrepUpdate (attempt : ℕ) : SnapshotUpdate :=
  { progress := some (if 1 < attempt then 5 else 0)
    message := some (if 1 < attempt then
        "Retrying (" ++ toString attempt ++ "/3)..." else "Starting download...")
    phase := some "preparing" }

/-- successTail500 is the effect sequence of the success branch of the
v5.0.0 loop: the 95 percent write, the history append, the final
100 percent completed write. -/
def successTail500 (cid : String) : List Effect :=
  [ .write cid
      { progress := some 95, message := some "Preparing file...",
        phase := some "processing" },
    .history true,
    .write cid
      { progress := some 100, message := some "Complete!",
        phase := some "complete", completed := some true,
        fileReady := some true } ]

/-- errorTail500 is the effect sequence after the v5.0.0 loop ends in
failure: the error write (progress 0) and the failure history append. -/
def errorTail500 (cid err : String) : List Effect :=
  [ .write cid
      { progress := some 0, message := some err, phase := some "error",
        error := some err, completed := some false },
    .history false ]

/-- run500Aux embeds the v5.0.0 retry loop, one recursive step per
iteration; remaining is the number of iterations the for loop can still
run, lastErr and lastBot are the variables carried across iterations.
A failed attempt continues only when it was bot detection or its error
mentions Fragment. -/
def run500Aux (sc : ℕ → Attempt500) (cid : String) :
    ℕ → ℕ → String → Bool → RouteResult
  | 0, attempt, lastErr, lastBot =>
    { trace := errorTail500 cid lastErr
      status := if lastBot then 403 else 500
      attempts := attempt - 1 }
  | remaining + 1, attempt, _, _ =>
    let a := sc attempt
    let pre := Effect.write cid (attemptPrepUpdate attempt) :: Effect.spawn ::
      stderrFold500 cid 0 a.stderr
    if a.result.success then
      { trace := pre ++ successTail500 cid, status := 200, attempts := attempt }
    else
      let e := if a.result.error = "" then "Unknown error" else a.result.error
      if a.result.isBotDetection || strContains e "Fragment" then
        let rest := run500Aux sc cid remaining (attempt + 1) e a.result.isBotDetection
        { trace := pre ++ rest.trace, status := rest.status, attempts := rest.attempts }
      else
        { trace := pre ++ errorTail500 cid e
          status := if a.result.isBotDetection then 403 else 500
          attempts := attempt }

/-- post500 embeds POST of download/route.ts v5.0.0: rate limit first,
then input validation, then the initial progress write and the retry
loop (MAX_RETRIES = 3). -/
def post500 (rl : RateState) (ip : String) (now : ℕ) (validOk : Bool)
    (sc : ℕ → Attempt500) (cid : String) : RouteResult :=
  if (checkRateLimit rl ip now).1 = false then
    { trace := [], status := 429, attempts := 0 }
  else if validOk = false then
    { trace := [], status := 400, attempts := 0 }
  else
    let r := run500Aux sc cid 3 1 "" false
    let init : SnapshotUpdate :=
      { progress := some 0, message := some "Starting download...",
        phase := some "preparing" }
    { trace := Effect.write cid init :: r.trace
      status := r.status
      attempts := r.attempts }

/-- writePercents extracts, in order, the percent values of the progress
writes for one id that actually set the progress field. -/
def writePercents (trace : List Effect) (cid : String) : List ℚ :=
  trace.filterMap fun e =>
    match e with
    | .write id u => if id = cid then u.progress else none
    | _ => none

/-- spawnCount counts the subprocess spawns in a trace. -/
def spawnCount (trace : List Effect) : ℕ :=
  trace.countP fun e => match e with | .spawn => true | _ => false

/-! ## Cookie acquisition

src/lib/auto-cookies.ts fetchFreshCookies and the v5.3.0 getCachedCookies
of src/lib/yt-dlp-utils.ts.  The outbound HTTP fetch is abstracted by a
FetchOutcome: axios resolves with a status below 500 or throws (network
error, abort timeout, or a 5xx status). -/

/-- FetchOutcome is the behaviour of the axios.get call for the cookie
source URL. -/
inductive FetchOutcome
  | reply (status : ℕ) (content : String)
  | throwErr (msg : String)
  deriving Repr, DecidableEq

/-- charTrim trims JavaScript-style whitespace from both ends. -/
def charTrim (l : List Char) : List Char :=
  ((l.dropWhile jsWhitespace).reverse.dropWhile jsWhitespace).reverse

/-- splitOnChar splits a character list at every occurrence of sep
(embeds JavaScript String.prototype.split with a one-character
separator). -/
def splitOnChar (sep : Char) : List Char → List (List Char)
  | [] => [[]]
  | c :: cs =>
    let r := splitOnChar sep cs
    if c == sep then [] :: r
    else
      match r with
      | [] => [[c]]
      | h :: t => (c :: h) :: t

/-- sanitizeCookies embeds auto-cookies.ts sanitizeCookies: keep trimmed
comment lines, drop empty lines, keep tab-separated lines with at least
6 fields after stripping carriage returns and newlines from each field,
join with newlines and append a final newline. -/
def sanitizeCookies (content : String) : String :=
  let validLines := (splitOnChar '\n' content.toList).filterMap fun line =>
    let trimmed := charTrim line
    if listStarts ['#'] trimmed then some trimmed
    else if trimmed = [] then none
    else
      let fields := splitOnChar '\t' trimmed
      if 6 ≤ fields.length then
        some (List.intercalate ['\t']
          (fields.map (List.filter fun c => !(c == '\r' || c == '\n'))))
      else none
  ⟨List.intercalate ['\n'] validLines ++ ['\n']⟩

/-- cookiesHeaderOk is the first zod refinement of auto-cookies.ts: the
trimmed content starts with a recognized cookie-file header. -/
def cookiesHeaderOk (content : String) : Bool :=
  strStarts (strTrim content) "# Netscape HTTP Cookie File" ||
  strStarts (strTrim content) "# HTTP Cookie File"

/-- cookiesDomainOk is the second zod refinement of auto-cookies.ts: the
content mentions a YouTube domain. -/
def cookiesDomainOk (content : String) : Bool :=
  strContains content ".youtube.com" || strContains content "youtube.com"

/-- CookiesFetchResult mirrors the CookiesFetchResult interface of
auto-cookies.ts. -/
structure CookiesFetchResult where
  success : Bool
  tempPath : Option String := none
  error : Option String := none
  usedFallback : Bool := false
  deriving Repr, DecidableEq

/-- CookieFile is the temp file written by a cookie acquisition (path and
content), the model of the fs.writeFileSync effect. -/
structure CookieFile where
  path : String
  content : String
  deriving Repr, DecidableEq

/-- fallbackCookiesContent is the literal written by
createFallbackCookiesFile in auto-cookies.ts. -/
def fallbackCookiesContent : String :=
  "# Netscape HTTP Cookie File\n"
  ++ "# This is a fallback file generated when external cookies fetch failed\n"
  ++ "# Contains basic consent cookies for YouTube access\n"
  ++ "\n"
  ++ ".youtube.com\tTRUE\t/\tTRUE\t0\tSOCS\tCAISEAIgACgA\n"
  ++ ".youtube.com\tTRUE\t/\tTRUE\t0\tCONSENT\tYES+cb.20250101-01-p0.en+FX+123\n"

/-- fetchFreshCookies embeds auto-cookies.ts fetchFreshCookies: on a 200
reply whose content passes both refinements, sanitize and write a fresh
temp file; every other outcome lands in the catch block, which writes
the fallback consent file and returns normally with usedFallback set. -/
def fetchFreshCookies (o : FetchOutcome) (freshPath fallbackPath : String) :
    CookiesFetchResult × CookieFile :=
  let fallback : String → CookiesFetchResult × CookieFile := fun msg =>
    ({ success := false, tempPath := some fallbackPath, error := some msg,
       usedFallback := true },
     ⟨fallbackPath, fallbackCookiesContent⟩)
  match o with
  | .throwErr msg => fallback msg
  | .reply status content =>
    if status ≠ 200 then fallback ("HTTP " ++ toString status)
    else if !cookiesHeaderOk content then
      fallback "Invalid cookies format: Missing Netscape header"
    else if !cookiesDomainOk content then
      fallback "Invalid cookies format: No YouTube cookies found"
    else
      ({ success := true, tempPath := some freshPath, usedFallback := false },
       ⟨freshPath, sanitizeCookies content⟩)

/-- fetchFails says which outcomes take fetchFreshCookies into its catch
block. -/
def fetchFails (o : FetchOutcome) : Bool :=
  match o with
  | .throwErr _ => true
  | .reply status content =>
    status ≠ 200 || !cookiesHeaderOk content || !cookiesDomainOk content

/-- COOKIES_CACHE_TTL of yt-dlp-utils.ts v5.3.0: 120 seconds. -/
def COOKIES_CACHE_TTL : ℕ := 120000

/-- CookiesCacheSt mirrors the CookiesCache singleton of yt-dlp-utils.ts. -/
structure CookiesCacheSt where
  content : String := ""
  lastFetch : ℕ := 0
  tempPath : Option String := none
  isValid : Bool := false
  deriving Repr, DecidableEq

/-- isCookiesCacheValid embeds the yt-dlp-utils.ts check of the same
name. -/
def isCookiesCacheValid (st : CookiesCacheSt) (now : ℕ) : Bool :=
  st.isValid && !(st.content = "") && (now - st.lastFetch ≤ COOKIES_CACHE_TTL)

/-- invalidateCookiesCache embeds the yt-dlp-utils.ts function: it clears
only the validity flag. -/
def invalidateCookiesCache (st : CookiesCacheSt) : CookiesCacheSt :=
  { st with isValid := false }

/-- v53CacheValidOk is the v5.3.0 content validation of getCachedCookies
(substring checks, not the zod schema of auto-cookies.ts). -/
def v53CacheValidOk (content : String) : Bool :=
  (strContains content "# Netscape" || strContains content "# HTTP Cookie") &&
  (strContains content ".youtube.com" || strContains content "youtube.com")

/-- generateConsentCookies embeds the v5.3.0 fallback payload; nowSec is
Math.floor(Date.now() / 1000). -/
def generateConsentCookies (nowSec : ℕ) : String :=
  let expiry := nowSec + 365 * 24 * 60 * 60
  "# Netscape HTTP Cookie File\n"
  ++ "# Generated by YT-Downloader v5.3.0\n"
  ++ "# This file contains consent cookies for YouTube\n"
  ++ "\n"
  ++ ".youtube.com\tTRUE\t/\tTRUE\t" ++ toString expiry
  ++ "\tCONSENT\tYES+cb.20240101-00-p0.en+FX+" ++ toString nowSec ++ "\n"
  ++ ".youtube.com\tTRUE\t/\tFALSE\t" ++ toString expiry
  ++ "\tPREF\ttz=UTC&f6=40000000\n"
  ++ ".youtube.com\tTRUE\t/\tTRUE\t" ++ toString expiry
  ++ "\tSECS\t" ++ toString nowSec ++ "\n"
  ++ ".google.com\tTRUE\t/\tTRUE\t" ++ toString expiry
  ++ "\tCONSENT\tYES+cb.20240101-00-p0.en+FX+" ++ toString nowSec ++ "\n"

/-- CachedCookiesResult mirrors the return type of getCachedCookies. -/
structure CachedCookiesResult where
  content : String
  tempPath : String
  fromCache : Bool
  usedFallback : Bool
  deriving Repr, DecidableEq

/-- getCachedCookies embeds yt-dlp-utils.ts v5.3.0 getCachedCookies:
serve from the cache when allowed, else fetch; a 200 reply with valid
content refreshes the cache, every failure synthesizes the consent
fallback, writes it, marks the cache valid and returns it with
usedFallback set — the function never raises. cachedFileExists models
fs.existsSync on the cached temp path. -/
def getCachedCookies (st : CookiesCacheSt) (forceRefresh : Bool) (now : ℕ)
    (cachedFileExists : Bool) (o : FetchOutcome) (freshPath fbPath : String) :
    CachedCookiesResult × CookiesCacheSt :=
  match st.tempPath with
  | some cachedPath =>
    if !forceRefresh && isCookiesCacheValid st now && cachedFileExists then
      ({ content := st.content, tempPath := cachedPath, fromCache := true,
         usedFallback := false }, st)
    else getCachedCookiesFetch now o freshPath fbPath
  | none => getCachedCookiesFetch now o freshPath fbPath
where
  /-- getCachedCookiesFetch is the fetch-or-fallback tail of
  getCachedCookies; every field of the module-level cache is overwritten,
  so the previous state does not appear. -/
  getCachedCookiesFetch (now : ℕ) (o : FetchOutcome)
      (freshPath fbPath : String) : CachedCookiesResult × CookiesCacheSt :=
    let fallback : CachedCookiesResult × CookiesCacheSt :=
      let fb := generateConsentCookies (now / 1000)
      ({ content := fb, tempPath := fbPath, fromCache := false,
         usedFallback := true },
       { content := fb, lastFetch := now, tempPath := some fbPath,
         isValid := true })
    match o with
    | .throwErr _ => fallback
    | .reply status content =>
      if status ≠ 200 then fallback
      else if !v53CacheValidOk content then fallback
      else
        ({ content := content, tempPath := freshPath, fromCache := false,
           usedFallback := false },
         { content := content, lastFetch := now, tempPath := some freshPath,
           isValid := true })

/-! ## Extractor argument builders

buildSafeYtDlpArgs of download/route.ts v5.0.0 and getAntiBotArgs of
src/lib/ytdlp.ts.  fs.existsSync on the cookie path is the Bool
parameter cookieFileExists; the random user agent of getAntiBotArgs is
an explicit parameter drawn from USER_AGENTS. -/

/-- buildSafeYtDlpArgs embeds the v5.0.0 argument builder: cookies are
passed only through the --cookies file flag, added exactly when a path
was supplied and the file exists. -/
def buildSafeYtDlpArgs (url formatId outputPath : String)
    (cookiePath : Option String) (cookieFileExists : Bool)
    (ext : String) (hasVideo needsMerge : Bool) : List String :=
  [url, "-f", formatId, "-o", outputPath,
   "--no-playlist", "--no-mtime",
   "--retries", "10", "--fragment-retries", "10", "--file-access-retries", "10",
   "--buffer-size", "16M", "--http-chunk-size", "10M",
   "--geo-bypass", "--force-ipv4", "--no-warnings", "--ignore-errors",
   "--socket-timeout", "30"]
  ++ (match cookiePath with
      | some p => if cookieFileExists then ["--cookies", p] else []
      | none => [])
  ++ (if needsMerge then
        ["--merge-output-format", if ext = "webm" then "webm" else "mp4",
         "--embed-metadata",
         "--postprocessor-args", "ffmpeg:-c:v copy -c:a aac -movflags +faststart"]
      else [])
  ++ (if !hasVideo && (ext = "mp3" || ext = "m4a") then
        ["-x", "--audio-format", ext, "--audio-quality", "0"]
      else [])

/-- USER_AGENTS is the rotation list of src/lib/user-agents.ts. -/
def USER_AGENTS : List String :=
  ["Mozilla/5.0 (Windows NT 10.0; Win64; x64) AppleWebKit/537.36 (KHTML, like Gecko) Chrome/120.0.0.0 Safari/537.36",
   "Mozilla/5.0 (Windows NT 10.0; Win64; x64) AppleWebKit/537.36 (KHTML, like Gecko) Chrome/119.0.0.0 Safari/537.36",
   "Mozilla/5.0 (Windows NT 10.0; Win64; x64) AppleWebKit/537.36 (KHTML, like Gecko) Chrome/121.0.0.0 Safari/537.36",
   "Mozilla/5.0 (Macintosh; Intel Mac OS X 10_15_7) AppleWebKit/537.36 (KHTML, like Gecko) Chrome/120.0.0.0 Safari/537.36",
   "Mozilla/5.0 (Macintosh; Intel Mac OS X 10_15_7) AppleWebKit/537.36 (KHTML, like Gecko) Chrome/119.0.0.0 Safari/537.36",
   "Mozilla/5.0 (Windows NT 10.0; Win64; x64; rv:121.0) Gecko/20100101 Firefox/121.0",
   "Mozilla/5.0 (Windows NT 10.0; Win64; x64; rv:120.0) Gecko/20100101 Firefox/120.0",
   "Mozilla/5.0 (Macintosh; Intel Mac OS X 10.15; rv:121.0) Gecko/20100101 Firefox/121.0",
   "Mozilla/5.0 (Macintosh; Intel Mac OS X 10_15_7) AppleWebKit/605.1.15 (KHTML, like Gecko) Version/17.2 Safari/605.1.15",
   "Mozilla/5.0 (Macintosh; Intel Mac OS X 10_15_7) AppleWebKit/605.1.15 (KHTML, like Gecko) Version/17.1 Safari/605.1.15",
   "Mozilla/5.0 (Windows NT 10.0; Win64; x64) AppleWebKit/537.36 (KHTML, like Gecko) Chrome/120.0.0.0 Safari/537.36 Edg/120.0.0.0",
   "Mozilla/5.0 (Windows NT 10.0; Win64; x64) AppleWebKit/537.36 (KHTML, like Gecko) Chrome/119.0.0.0 Safari/537.36 Edg/119.0.0.0",
   "Mozilla/5.0 (X11; Linux x86_64) AppleWebKit/537.36 (KHTML, like Gecko) Chrome/120.0.0.0 Safari/537.36",
   "Mozilla/5.0 (X11; Linux x86_64) AppleWebKit/537.36 (KHTML, like Gecko) Chrome/119.0.0.0 Safari/537.36"]

/-- getAntiBotArgs embeds the ytdlp.ts argument builder: the cookie file
flag is added exactly when a path was supplied and the file exists, and
the only --add-header values are the Accept-Language and Accept
headers. -/
def getAntiBotArgs (userAgent : String) (cookiePath : Option String)
    (cookieFileExists : Bool) : List String :=
  ["--user-agent", userAgent,
   "--referer", "https://www.youtube.com/"]
  ++ (match cookiePath with
      | some p => if cookieFileExists then ["--cookies", p] else []
      | none => [])
  ++ ["--add-header", "Accept-Language: en-US,en;q=0.9",
      "--add-header", "Accept: text/html,application/xhtml+xml,application/xml;q=0.9,image/webp,*/*;q=0.8",
      "--sleep-requests", "1",
      "--sleep-interval", "2",
      "--max-sleep-interval", "5",
      "--no-check-certificates",
      "--extractor-args", "youtube:player_client=web,default;po_token=web+MnQNCfXWk5g0iAblYe-ArcaDndANJ3WZPB7aVb-3u8N_J1E6TOKe5FYmhDXDvbT0ADEX2R6dGmPCB3-2R9t_fqBWCeyTSqPGmMXqMGWdXmCVCSqvMWjx0XA8cFo6jFg_F5BX6AOoHY37MfqKZXJB9g==",
      "--geo-bypass",
      "--force-ipv4",
      "--ignore-errors",
      "--no-warnings"]

/-- noCookieHeaderArg checks that no element equal to --add-header is
immediately followed by a value of the form Cookie: ... . -/
def noCookieHeaderArg : List String → Bool
  | a :: b :: rest =>
    (if a = "--add-header" then !(strStarts b "Cookie:") else true) &&
    noCookieHeaderArg (b :: rest)
  | _ => true

/-! ## Fallback formats and the v5.1.0 download route

getFallbackFormat of src/lib/yt-dlp-utils.ts (v5.1.0, the attempt-indexed
ladder over DEFAULT_DOWNLOAD_CONFIG.fallbackFormats) and the v5.1.0 POST
retry loop, which substitutes a fallback format after a corruption
outcome, forces a cookie refresh after bot detection, and retries only
after bot-detection, corruption, or timeout outcomes. -/

/-- fallbackFormats is DEFAULT_DOWNLOAD_CONFIG.fallbackFormats of
yt-dlp-utils.ts v5.1.0. -/
def fallbackFormats : List String :=
  ["best[height<=720]", "best[height<=480]", "best[ext=mp4]", "best"]

/-- getFallbackFormat embeds yt-dlp-utils.ts v5.1.0 getFallbackFormat:
attempt 0 keeps the original format, later attempts index the ladder,
clamped to its last entry. -/
def getFallbackFormat (attempt : ℕ) (originalFormat : String) : String :=
  if attempt = 0 then originalFormat
  else fallbackFormats.getD (min (attempt - 1) (fallbackFormats.length - 1)) "best"

/-- heightCeiling is the quality measure induced by the quality ladder of
the specification: the resolution ceiling named by a height bound inside
the selector, and no bound (top) for unrestricted selectors such as
best. A selector is lower-quality-or-equal than another when its ceiling
is at most the other's. -/
def heightCeiling (format : String) : WithTop ℕ :=
  match restAfter "height<=".toList format.toList with
  | some rest =>
    let ds := rest.takeWhile Char.isDigit
    if ds.isEmpty then ⊤ else ((digitsToNat ds : ℕ) : WithTop ℕ)
  | none => ⊤

/-- AttemptResult510 is the value the v5.1.0 executeDownload resolves
with (classification flags included). -/
structure AttemptResult510 where
  success : Bool
  error : String := ""
  isBotDetection : Bool := false
  isCorruption : Bool := false
  isTimeout : Bool := false
  deriving Repr, DecidableEq

/-- Effect510 is an entry of the observable trace of the v5.1.0 retry
loop: a getCachedCookies call with its forceRefresh argument, a
subprocess spawn with the format selector it was given, or an
invalidateCookiesCache call. -/
inductive Effect510
  | acquire (forceRefresh : Bool)
  | spawnFmt (formatId : String)
  | invalidate
  deriving Repr, DecidableEq

/-- Route510Result is the observable outcome of the v5.1.0 POST body. -/
structure Route510Result where
  trace : List Effect510
  status : ℕ
  attempts : ℕ
  deriving Repr, DecidableEq

/-- run510Aux embeds the v5.1.0 retry loop, one recursive step per
iteration; remaining is the number of iterations left, lastErr, lastBot
and lastCorr are the variables carried across iterations. -/
def run510Aux (sc : ℕ → AttemptResult510) (req : String) :
    ℕ → ℕ → String → Bool → Bool → Route510Result
  | 0, attempt, _, lastBot, _ =>
    { trace := []
      status := if lastBot then 403 else 500
      attempts := attempt - 1 }
  | remaining + 1, attempt, lastErr, lastBot, lastCorr =>
    let formatId :=
      if 1 < attempt && lastCorr then getFallbackFormat (attempt - 1) req else req
    let forceRefreshCookies :=
      lastBot || (1 < attempt && strContains lastErr "403")
    let r := sc attempt
    let pre := [Effect510.acquire forceRefreshCookies, Effect510.spawnFmt formatId]
    if r.success then
      { trace := pre, status := 200, attempts := attempt }
    else
      let e := if r.error = "" then "Unknown error" else r.error
      let inval :=
        if r.isBotDetection || strContains e "403" || strContains e "429" then
          [Effect510.invalidate]
        else []
      if r.isBotDetection || r.isCorruption || r.isTimeout then
        let rest := run510Aux sc req remaining (attempt + 1) e
          r.isBotDetection r.isCorruption
        { trace := pre ++ inval ++ rest.trace
          status := rest.status
          attempts := rest.attempts }
      else
        { trace := pre ++ inval
          status := if r.isBotDetection then 403 else 500
          attempts := attempt }

/-- run510 starts the v5.1.0 retry loop at attempt 1 with MAX_RETRIES = 3
and empty carried state. -/
def run510 (sc : ℕ → AttemptResult510) (req : String) : Route510Result :=
  run510Aux sc req 3 1 "" false false

/-- acquireFlags extracts, in order, the forceRefresh arguments of the
getCachedCookies calls of a v5.1.0 trace. -/
def acquireFlags (trace : List Effect510) : List Bool :=
  trace.filterMap fun e =>
    match e with
    | .acquire b => some b
    | _ => none

/-- formatsUsed extracts, in order, the format selectors the v5.1.0 loop
spawned the extractor with. -/
def formatsUsed (trace : List Effect510) : List String :=
  trace.filterMap fun e =>
    match e with
    | .spawnFmt f => some f
    | _ => none

/-! ## The v5.3.0 streaming route (src/unnamed/part_006)

The POST handler's fatal-error path and the DELETE cancellation handler
with its cleanupDownload helper.  The active-downloads table is a
function from ids to optional entries; process and file-system effects
are recorded in a trace. -/

/-- StreamResponse is the observable HTTP response of the streaming POST
handler. -/
structure StreamResponse where
  status : ℕ
  bodySuccess : Option Bool := none
  errorBody : Option String := none
  suggestion : Option String := none
  xError : Bool := false
  streaming : Bool := false
  deriving Repr, DecidableEq

/-- streamPost embeds the control skeleton of the part_006 POST handler:
rate limit first, then the body parse and setup (fatal models an
exception thrown inside the try block, for example a body parse
failure), then schema validation, then the streaming 200 response.  The
catch block answers with status 200 and a structured JSON error body. -/
def streamPost (rateOk : Bool) (fatal : Option String) (validOk : Bool) :
    StreamResponse :=
  if !rateOk then
    { status := 429, bodySuccess := some false,
      errorBody := some "Too many requests. Please wait a moment." }
  else
    match fatal with
    | some msg =>
      { status := 200, bodySuccess := some false, errorBody := some msg,
        suggestion := some "Try a lower quality format or wait a moment",
        xError := true }
    | none =>
      if !validOk then
        { status := 400, bodySuccess := some false,
          errorBody := some "Invalid request parameters" }
      else
        { status := 200, streaming := true }

/-- ActiveEntry mirrors one entry of the part_006 activeDownloads map;
processKilled models ChildProcess.killed and cookieFileExists models
fs.existsSync on the cookie path. -/
structure ActiveEntry where
  hasProcess : Bool
  processKilled : Bool := false
  hasInterval : Bool := false
  cookiePath : Option String := none
  cookieFileExists : Bool := false
  deriving Repr, DecidableEq

/-- ActiveMap is the activeDownloads table of part_006. -/
def ActiveMap := String → Option ActiveEntry

/-- CleanupEff is one observable effect of cleanupDownload. -/
inductive CleanupEff
  | clearTimer
  | killSignal (signal : String)
  | unlink (p : String)
  | dropEntry (id : String)
  | clearProg (id : String)
  deriving Repr, DecidableEq

/-- cleanupDownload embeds part_006 cleanupDownload: when the id is
tracked, clear the keep-alive timer, send SIGTERM to a live process,
delete the cookie temp file when present on disk and drop the entry;
the progress entry is cleared in every case. -/
def cleanupDownload (m : ActiveMap) (id : String) :
    ActiveMap × List CleanupEff :=
  match m id with
  | some d =>
    let effs :=
      (if d.hasInterval then [CleanupEff.clearTimer] else [])
      ++ (if d.hasProcess && !d.processKilled then
            [CleanupEff.killSignal "SIGTERM"] else [])
      ++ (match d.cookiePath with
          | some p => if d.cookieFileExists then [CleanupEff.unlink p] else []
          | none => [])
      ++ [CleanupEff.dropEntry id]
    (fun k => if k = id then none else m k, effs ++ [CleanupEff.clearProg id])
  | none => (m, [CleanupEff.clearProg id])

/-- signalsSent extracts the kill signals of a cleanup effect list. -/
def signalsSent (effs : List CleanupEff) : List String :=
  effs.filterMap fun e =>
    match e with
    | .killSignal s => some s
    | _ => none

/-- DeleteResponse is the observable response of the DELETE handler. -/
structure DeleteResponse where
  status : ℕ
  success : Bool
  effects : List CleanupEff
  deriving Repr, DecidableEq

/-- deleteRoute embeds the part_006 DELETE handler: a non-empty id that
is tracked is cleaned up and answered with success true, every other
request gets a 404 not-found body. -/
def deleteRoute (m : ActiveMap) (idParam : Option String) :
    DeleteResponse × ActiveMap :=
  match idParam with
  | some id =>
    if id ≠ "" ∧ (m id).isSome then
      let r := cleanupDownload m id
      ({ status := 200, success := true, effects := r.2 }, r.1)
    else
      ({ status := 404, success := false, effects := [] }, m)
  | none => ({ status := 404, success := false, effects := [] }, m)

/-! ## Concrete scenarios used by the theorems below -/

/-- rlEmpty is the rate limiter before any request. -/
def rlEmpty : RateState := fun _ => none

/-- c1Scenario: attempt 1 reaches 50 percent on stderr and then fails
with bot detection; attempt 2 fails with an unavailable-video message
(not retried). -/
def c1Scenario : ℕ → Attempt500 := fun n =>
  if n = 1 then
    { stderr := [StderrEv.pct 50]
      result := { success := false, error := "Bot detection",
                  isBotDetection := true } }
  else
    { stderr := []
      result := { success := false,
                  error := "This video is unavailable or has been removed." } }

/-- charLower embeds JavaScript toLowerCase for ASCII letters. -/
def charLower (c : Char) : Char :=
  if 'A' ≤ c ∧ c ≤ 'Z' then Char.ofNat (c.toNat + 32) else c

/-- strLower embeds JavaScript String.prototype.toLowerCase (ASCII). -/
def strLower (s : String) : String :=
  ⟨s.toList.map charLower⟩

/-- isCorruptionError embeds the yt-dlp-utils.ts v5.1.0 classifier of the
same name (substring match over the corruption indicator table). -/
def isCorruptionError (e : String) : Bool :=
  ["corrupt", "invalid", "malformed", "truncated", "incomplete",
   "moov atom not found", "no such file", "premature end", "unexpected end",
   "broken"].any fun ind => strContains (strLower e) ind

/-- isTimeoutErrorStr embeds the yt-dlp-utils.ts v5.1.0 isTimeoutError
classifier. -/
def isTimeoutErrorStr (e : String) : Bool :=
  ["timeout", "timed out", "deadline", "etimedout"].any fun ind =>
    strContains (strLower e) ind

/-- timeoutResult510 is the value the v5.1.0 executeDownload resolves
with when the watchdog killed the process. -/
def timeoutResult510 : AttemptResult510 :=
  { success := false, error := "Download timed out", isTimeout := true }

/-- unavailableMsg is getErrorMessage's text for an unavailable video. -/
def unavailableMsg : String :=
  "This video is unavailable or has been removed."

/-- unavailableResult510 is the v5.1.0 executeDownload resolution for a
nonzero exit whose diagnostics say the video is unavailable; the
classifier flags are computed exactly as in the source. -/
def unavailableResult510 : AttemptResult510 :=
  { success := false, error := unavailableMsg
    isCorruption := isCorruptionError unavailableMsg
    isTimeout := isTimeoutErrorStr unavailableMsg }

/-- botResult510 is the v5.1.0 executeDownload resolution for stderr
matching the bot-detection phrases. -/
def botResult510 : AttemptResult510 :=
  { success := false, error := "Bot detection", isBotDetection := true }

/-- corruptionResult510 is the v5.1.0 executeDownload resolution for a
failed post-download validation. -/
def corruptionResult510 : AttemptResult510 :=
  { success := false, error := "Video may be corrupted", isCorruption := true }

/-- successResult510 is a successful v5.1.0 attempt. -/
def successResult510 : AttemptResult510 := { success := true }

/-- c3TimeoutSc injects a timeout on every attempt. -/
def c3TimeoutSc : ℕ → AttemptResult510 := fun _ => timeoutResult510

/-- c3UnavailSc injects an unavailable-video failure on every attempt. -/
def c3UnavailSc : ℕ → AttemptResult510 := fun _ => unavailableResult510

/-- c3TimeoutSc500 injects the v5.0.0 timeout resolution on every
attempt. -/
def c3TimeoutSc500 : ℕ → Attempt500 := fun _ =>
  { stderr := [], result := { success := false, error := "Download timed out" } }

/-- c4Sc: bot detection on attempt 1, success afterwards. -/
def c4Sc : ℕ → AttemptResult510 := fun n =>
  if n = 1 then botResult510 else successResult510

/-- c7Sc: corruption on attempts 1 and 2, success on attempt 3. -/
def c7Sc : ℕ → AttemptResult510 := fun n =>
  if n ≤ 2 then corruptionResult510 else successResult510

/-! ## Claim theorems -/

/-- helper: within one executeDownload attempt, every progress value the
stderr handler writes is strictly above the running lastProgress, so the
written percents form a strictly increasing chain. -/
theorem stderrFold500_chain (cid : String) (last : ℚ) (events : List StderrEv) :
    List.Chain' (· < ·) (last :: writePercents (stderrFold500 cid last events) cid) := by
  induction events generalizing last with
  | nil => simp [stderrFold500, writePercents]
  | cons e rest ih =>
    cases h : parseProgress500 e with
    | none => simpa [stderrFold500, h] using ih last
    | some info =>
      by_cases hlt : last < info.1
      · have h2 := ih info.1
        have heq : writePercents (stderrFold500 cid last (e :: rest)) cid =
            info.1 :: writePercents (stderrFold500 cid info.1 rest) cid := by
          simp [stderrFold500, h, hlt, writePercents]
        rw [heq]
        exact List.chain'_cons.2 ⟨hlt, h2⟩
      · simpa [stderrFold500, h, hlt] using ih last

/-- C1 (counterexample): in the v5.0.0 download route the percent written
to the progress store regresses across attempts: attempt 1 reaches 45
(scaled from the 50 percent stderr line), the retry-preparation write of
attempt 2 stores 5, and the final error write stores 0, so the sequence
of stored percents for the correlation id is not monotone even though
neither completed nor error had become true before the regression. -/
theorem c1_percent_regresses :
    writePercents (post500 rlEmpty "ip" 0 true c1Scenario "dl1").trace "dl1" =
      [0, 0, 45, 5, 0] ∧
    ¬ List.Chain' (· ≤ ·)
      (writePercents (post500 rlEmpty "ip" 0 true c1Scenario "dl1").trace "dl1") := by
  have hfrag :
      strContains "This video is unavailable or has been removed." "Fragment" = false := by
    decide
  have hne : ¬ (("This video is unavailable or has been removed." : String) = "") := by
    decide
  have htr : writePercents (post500 rlEmpty "ip" 0 true c1Scenario "dl1").trace "dl1" =
      [0, 0, 45, 5, 0] := by
    norm_num [post500, rlEmpty, checkRateLimit, run500Aux, c1Scenario,
      stderrFold500, parseProgress500, qmin, hfrag, hne, attemptPrepUpdate,
      errorTail500, successTail500, writePercents, List.filterMap_cons,
      List.filterMap_nil]
  refine ⟨htr, ?_⟩
  rw [htr]
  norm_num [List.chain'_cons]

/-- C1 (amended): within a single download attempt the stderr-driven
progress writes of executeDownload are strictly increasing (each write
is guarded by progress > lastProgress); the monotonicity claimed for the
whole request fails only at the retry-preparation and final error
writes, which store the fixed values 5 and 0. -/
theorem c1_within_attempt_monotone (cid : String) (events : List StderrEv) :
    List.Chain' (· < ·) (writePercents (stderrFold500 cid 0 events) cid) :=
  (stderrFold500_chain cid 0 events).tail

/-- C10: updateProgress is a key-local merge: the entry for the id
becomes the merge of the previous entry (or the default) with the
update, fields absent from the update keep their previous value, a
missing entry is created from the default, and every other id is
untouched. -/
theorem c10_updateProgress_merge_frame
    (store : ProgressStore) (id : String) (u : SnapshotUpdate) :
    (updateProgress store id u id =
      some (mergeSnapshot ((store id).getD defaultSnapshot) u)) ∧
    (store id = none →
      updateProgress store id u id = some (mergeSnapshot defaultSnapshot u)) ∧
    (∀ prev : Snapshot,
      (u.progress = none → (mergeSnapshot prev u).progress = prev.progress) ∧
      (u.message = none → (mergeSnapshot prev u).message = prev.message) ∧
      (u.phase = none → (mergeSnapshot prev u).phase = prev.phase) ∧
      (u.speed = none → (mergeSnapshot prev u).speed = prev.speed) ∧
      (u.eta = none → (mergeSnapshot prev u).eta = prev.eta) ∧
      (u.error = none → (mergeSnapshot prev u).error = prev.error) ∧
      (u.completed = none → (mergeSnapshot prev u).completed = prev.completed) ∧
      (u.fileReady = none → (mergeSnapshot prev u).fileReady = prev.fileReady) ∧
      (u.filePath = none → (mergeSnapshot prev u).filePath = prev.filePath) ∧
      (u.isCorruption = none →
        (mergeSnapshot prev u).isCorruption = prev.isCorruption) ∧
      (u.suggestion = none → (mergeSnapshot prev u).suggestion = prev.suggestion) ∧
      (u.attempt = none → (mergeSnapshot prev u).attempt = prev.attempt)) ∧
    (∀ id', id' ≠ id → updateProgress store id u id' = store id') := by
  refine ⟨by simp [updateProgress], ?_, ?_, ?_⟩
  · intro h
    simp [updateProgress, h]
  · intro prev
    refine ⟨?_, ?_, ?_, ?_, ?_, ?_, ?_, ?_, ?_, ?_, ?_, ?_⟩ <;>
      · intro h
        simp [mergeSnapshot, h, Option.orElse]
  · intro id' h
    simp [updateProgress, h]

/-- C10 witness: a concrete write to an empty store creates the default
entry merged with the update and leaves another id untouched. -/
theorem c10_witness :
    updateProgress emptyProgressStore "a" { progress := some 50 } "a" =
      some (mergeSnapshot defaultSnapshot { progress := some 50 }) ∧
    updateProgress emptyProgressStore "a" { progress := some 50 } "b" = none ∧
    (mergeSnapshot defaultSnapshot { progress := some 50 }).message =
      "Initializing..." := by
  refine ⟨(c10_updateProgress_merge_frame emptyProgressStore "a"
      { progress := some 50 }).2.1 rfl, ?_, ?_⟩
  · have h := (c10_updateProgress_merge_frame emptyProgressStore "a"
      { progress := some 50 }).2.2.2 "b" (by decide)
    simpa [emptyProgressStore] using h
  · have h := ((c10_updateProgress_merge_frame emptyProgressStore "a"
      { progress := some 50 }).2.2.1 defaultSnapshot).2.1 rfl
    simpa [defaultSnapshot] using h

/-- helper: acquireFlags distributes over append. -/
theorem acquireFlags_append (a b : List Effect510) :
    acquireFlags (a ++ b) = acquireFlags a ++ acquireFlags b := by
  simp [acquireFlags]

/-- helper: formatsUsed distributes over append. -/
theorem formatsUsed_append (a b : List Effect510) :
    formatsUsed (a ++ b) = formatsUsed a ++ formatsUsed b := by
  simp [formatsUsed]

/-- helper: an optional invalidate effect has no formats. -/
theorem formatsUsed_inval (c : Prop) [Decidable c] :
    formatsUsed (if c then [Effect510.invalidate] else []) = [] := by
  split <;> simp [formatsUsed]

/-- helper: an optional invalidate effect has no acquire flags. -/
theorem acquireFlags_inval (c : Prop) [Decidable c] :
    acquireFlags (if c then [Effect510.invalidate] else []) = [] := by
  split <;> simp [acquireFlags]

/-- helper: the v5.1.0 loop reports at most att + rem - 1 attempts. -/
theorem run510Aux_attempts_le (sc : ℕ → AttemptResult510) (req : String) :
    ∀ (rem att : ℕ) (le : String) (lb lc : Bool), 1 ≤ att →
      (run510Aux sc req rem att le lb lc).attempts + 1 ≤ att + rem := by
  intro rem
  induction rem with
  | zero =>
    intro att le lb lc hatt
    simp only [run510Aux]
    omega
  | succ rem ih =>
    intro att le lb lc hatt
    have h := ih (att + 1)
      (if (sc att).error = "" then "Unknown error" else (sc att).error)
      (sc att).isBotDetection (sc att).isCorruption (by omega)
    simp only [run510Aux]
    split
    · dsimp only
      omega
    · split
      · dsimp only
        omega
      · dsimp only
        omega

/-- helper: a further attempt of the v5.1.0 loop is reached only through
a failed attempt flagged bot-detection, corruption or timeout. -/
theorem run510Aux_continue (sc : ℕ → AttemptResult510) (req : String) :
    ∀ (rem att : ℕ) (le : String) (lb lc : Bool) (n : ℕ),
      att ≤ n → n < (run510Aux sc req rem att le lb lc).attempts →
      (sc n).success = false ∧
      ((sc n).isBotDetection || (sc n).isCorruption || (sc n).isTimeout) = true := by
  intro rem
  induction rem with
  | zero =>
    intro att le lb lc n hle hlt
    simp only [run510Aux] at hlt
    omega
  | succ rem ih =>
    intro att le lb lc n hle hlt
    by_cases hs : (sc att).success = true
    · simp only [run510Aux, hs, if_true] at hlt
      omega
    · have hs' : (sc att).success = false := by
        cases h : (sc att).success
        · rfl
        · exact absurd h hs
      by_cases hr : ((sc att).isBotDetection || (sc att).isCorruption ||
          (sc att).isTimeout) = true
      · simp only [run510Aux, hs', Bool.false_eq_true, if_false, hr, if_true] at hlt
        by_cases hn : n = att
        · exact hn ▸ ⟨hs', hr⟩
        · exact ih (att + 1) _ _ _ n (by omega) hlt
      · have hr' : ((sc att).isBotDetection || (sc att).isCorruption ||
            (sc att).isTimeout) = false := Bool.eq_false_iff.mpr hr
        simp only [run510Aux, hs', hr', Bool.false_eq_true, if_false] at hlt
        omega

/-- C3 (amended): the v5.1.0 orchestrator (the retry loop that classifies
corruption and timeout flags) has the claimed behaviour: at most 3
attempts, a further attempt (n at least 1) only after a failed
bot-detection, corruption, or timeout outcome, exactly 3 attempts and a
failed 500 result under 3 consecutive timeouts, and a single attempt for
an unavailable video.  The claim fails for the v5.0.0 orchestrator,
which retries solely on bot-detection and fragment errors and stops
after a timeout (see the counterexample). -/
theorem c3_retry_loop_amended :
    (∀ (sc : ℕ → AttemptResult510) (req : String),
      (run510 sc req).attempts ≤ 3) ∧
    (∀ (sc : ℕ → AttemptResult510) (req : String) (n : ℕ),
      1 ≤ n → n < (run510 sc req).attempts →
      (sc n).success = false ∧
      ((sc n).isBotDetection || (sc n).isCorruption || (sc n).isTimeout) = true) ∧
    ((run510 c3TimeoutSc "best").attempts = 3 ∧
     (run510 c3TimeoutSc "best").status = 500) ∧
    ((run510 c3UnavailSc "best").attempts = 1 ∧
     (run510 c3UnavailSc "best").status = 500) := by
  refine ⟨?_, ?_, ?_, ?_⟩
  · intro sc req
    have h := run510Aux_attempts_le sc req 3 1 "" false false (by omega)
    simp only [run510]
    omega
  · intro sc req n h1 hlt
    exact run510Aux_continue sc req 3 1 "" false false n h1 hlt
  · constructor <;> decide
  · constructor <;> decide

/-- C3 witness: a concrete run with 3 consecutive timeouts performs all
3 attempts, and attempt 2 of it was entered on a timeout outcome. -/
theorem c3_retry_loop_amended_witness :
    (run510 c3TimeoutSc "best").attempts ≤ 3 ∧
    ((c3TimeoutSc 1).success = false ∧
     ((c3TimeoutSc 1).isBotDetection || (c3TimeoutSc 1).isCorruption ||
      (c3TimeoutSc 1).isTimeout) = true) := by
  refine ⟨c3_retry_loop_amended.1 c3TimeoutSc "best", ?_⟩
  exact c3_retry_loop_amended.2.1 c3TimeoutSc "best" 1 (by decide) (by decide)

/-- C3 (counterexample): in the v5.0.0 orchestrator a timeout outcome is
not retried, so 3 consecutive timeout outcomes end the request after a
single attempt, not the 3 attempts the claim requires. -/
theorem c3_v500_timeout_not_retried :
    (post500 rlEmpty "ip" 0 true c3TimeoutSc500 "dl").attempts = 1 ∧
    ¬ ((post500 rlEmpty "ip" 0 true c3TimeoutSc500 "dl").attempts = 3) := by
  constructor <;> decide

/-- helper: the acquire flags of a two-effect attempt prefix. -/
theorem acquireFlags_pair (b : Bool) (f : String) :
    acquireFlags [Effect510.acquire b, Effect510.spawnFmt f] = [b] := by
  simp [acquireFlags]

/-- helper: a v5.1.0 loop run with fuel left starts with an acquire whose
forceRefresh flag is computed from the carried state. -/
theorem run510Aux_head_flag (sc : ℕ → AttemptResult510) (req : String)
    (rem att : ℕ) (le : String) (lb lc : Bool) :
    (acquireFlags (run510Aux sc req (rem + 1) att le lb lc).trace).head? =
      some (lb || (decide (1 < att) && strContains le "403")) := by
  simp only [run510Aux]
  split
  · simp [acquireFlags]
  · split <;>
      · split <;> simp [acquireFlags, List.filterMap_cons, List.filterMap_append]

/-- helper: after a failed bot-detection attempt n, the acquire of
attempt n + 1 (when it happens) carries forceRefresh true. -/
theorem run510Aux_bot_forces (sc : ℕ → AttemptResult510) (req : String) :
    ∀ (rem att : ℕ) (le : String) (lb lc : Bool) (n : ℕ),
      att ≤ n → (sc n).success = false → (sc n).isBotDetection = true →
      n + 1 ≤ (run510Aux sc req rem att le lb lc).attempts →
      (acquireFlags (run510Aux sc req rem att le lb lc).trace).get?
        (n + 1 - att) = some true := by
  intro rem
  induction rem with
  | zero =>
    intro att le lb lc n hle hsn hbn hlt
    simp only [run510Aux] at hlt
    exact absurd hlt (by omega)
  | succ rem ih =>
    intro att le lb lc n hle hsn hbn hlt
    by_cases hs : (sc att).success = true
    · simp only [run510Aux, hs, if_true] at hlt
      exact absurd hlt (by omega)
    · have hs' : (sc att).success = false := Bool.eq_false_iff.mpr hs
      by_cases hr : ((sc att).isBotDetection || (sc att).isCorruption ||
          (sc att).isTimeout) = true
      · simp only [run510Aux, hs', Bool.false_eq_true, if_false, hr, if_true]
          at hlt ⊢
        rw [acquireFlags_append, acquireFlags_append, acquireFlags_inval,
          acquireFlags_pair, List.append_nil, List.singleton_append]
        by_cases hn : n = att
        · subst hn
          have hidx : n + 1 - n = 1 := by omega
          rw [hidx, List.get?_cons_succ]
          cases rem with
          | zero =>
            simp only [run510Aux] at hlt
            exact absurd hlt (by omega)
          | succ rem' =>
            rw [List.get?_zero, run510Aux_head_flag, hbn]
            simp
        · have hidx : n + 1 - att = (n + 1 - (att + 1)) + 1 := by omega
          rw [hidx, List.get?_cons_succ]
          exact ih (att + 1) _ _ _ n (by omega) hsn hbn hlt
      · have hr' : ((sc att).isBotDetection || (sc att).isCorruption ||
            (sc att).isTimeout) = false := Bool.eq_false_iff.mpr hr
        simp only [run510Aux, hs', hr', Bool.false_eq_true, if_false] at hlt
        exact absurd hlt (by omega)

/-- helper: the fetch-or-fallback tail of getCachedCookies never reports
fromCache. -/
theorem getCachedCookiesFetch_not_fromCache (now : ℕ) (o : FetchOutcome)
    (fp fbp : String) :
    ((getCachedCookies.getCachedCookiesFetch now o fp fbp).1).fromCache = false := by
  cases o with
  | throwErr msg => simp [getCachedCookies.getCachedCookiesFetch]
  | reply status content =>
    simp only [getCachedCookies.getCachedCookiesFetch]
    split
    · rfl
    · split
      · rfl
      · rfl

/-- C4: after an attempt that failed with bot detection, the credential
acquisition of the following attempt (when it happens) is called with
forceRefresh true; and invalidateCookiesCache clears the validity flag,
so the next getCachedCookies never serves from the cache, whatever its
age. -/
theorem c4_bot_forces_refresh :
    (∀ (sc : ℕ → AttemptResult510) (req : String) (n : ℕ),
      1 ≤ n → (sc n).success = false → (sc n).isBotDetection = true →
      n + 1 ≤ (run510 sc req).attempts →
      (acquireFlags (run510 sc req).trace).get? n = some true) ∧
    (∀ (st : CookiesCacheSt) (fr : Bool) (now : ℕ) (cfe : Bool)
       (o : FetchOutcome) (fp fbp : String),
      ((getCachedCookies (invalidateCookiesCache st) fr now cfe o fp fbp).1).fromCache
        = false) := by
  constructor
  · intro sc req n h1 hsn hbn hlt
    simp only [run510] at hlt ⊢
    have h := run510Aux_bot_forces sc req 3 1 "" false false n h1 hsn hbn hlt
    simpa using h
  · intro st fr now cfe o fp fbp
    cases h : st.tempPath with
    | none =>
      simp [getCachedCookies, invalidateCookiesCache, h,
        getCachedCookiesFetch_not_fromCache]
    | some p =>
      have hv' : isCookiesCacheValid
          { content := st.content, lastFetch := st.lastFetch,
            tempPath := some p, isValid := false } now = false := by
        simp [isCookiesCacheValid]
      simp [getCachedCookies, invalidateCookiesCache, h, hv',
        getCachedCookiesFetch_not_fromCache]

/-- C4 witness: with bot detection injected on attempt 1, attempt 2's
acquire call carries forceRefresh true, and a freshly invalidated cache
is not served from cache. -/
theorem c4_witness :
    (acquireFlags (run510 c4Sc "best").trace).get? 1 = some true ∧
    ((getCachedCookies (invalidateCookiesCache
        { content := "x", lastFetch := 0, tempPath := some "p", isValid := true })
        false 0 true (FetchOutcome.reply 200 "c") "fresh" "fb").1).fromCache
      = false := by
  exact ⟨c4_bot_forces_refresh.1 c4Sc "best" 1 (by decide) (by decide)
      (by decide) (by decide),
    c4_bot_forces_refresh.2 _ _ _ _ _ _ _⟩

/-- helper: formatsUsed drops an acquire effect. -/
theorem formatsUsed_cons_acquire (b : Bool) (l : List Effect510) :
    formatsUsed (Effect510.acquire b :: l) = formatsUsed l := by
  simp [formatsUsed]

/-- helper: formatsUsed keeps a spawn effect's format. -/
theorem formatsUsed_cons_spawn (f : String) (l : List Effect510) :
    formatsUsed (Effect510.spawnFmt f :: l) = f :: formatsUsed l := by
  simp [formatsUsed]

/-- helper: formatsUsed of the empty trace. -/
theorem formatsUsed_nil : formatsUsed [] = [] := by
  simp [formatsUsed]

/-- helper: the second ladder entry is 720p whatever the request. -/
theorem getFallbackFormat_one (req : String) :
    getFallbackFormat 1 req = "best[height<=720]" := rfl

/-- helper: the third ladder entry is 480p whatever the request. -/
theorem getFallbackFormat_two (req : String) :
    getFallbackFormat 2 req = "best[height<=480]" := rfl

/-- C7 (counterexample): under outcomes corruption, corruption, success
with requested format best with height at most 360, attempt 3 runs with
best with height at most 480 — a strictly higher quality ceiling than
attempt 1's 360, because the fallback ladder ignores the original
format.  The claim's universal quantification over requested formats is
therefore false. -/
theorem c7_ladder_not_lower_for_low_requests :
    formatsUsed (run510 c7Sc "best[height<=360]").trace =
      ["best[height<=360]", "best[height<=720]", "best[height<=480]"] ∧
    (run510 c7Sc "best[height<=360]").status = 200 ∧
    ¬ (heightCeiling "best[height<=480]" ≤ heightCeiling "best[height<=360]") := by
  refine ⟨by decide, by decide, by decide⟩

/-- C7 (amended): under outcomes corruption, corruption on the first two
attempts, attempt 2 runs with the 720p ladder entry and attempt 3 with
the 480p ladder entry, independent of the requested format; hence the
attempt-3 selector is lower-quality-or-equal than attempt 1's whenever
the requested format's height ceiling is at least 480 (in particular
for unrestricted formats), while requests already below 480p are
raised. -/
theorem c7_fallback_ladder_amended (req : String) (r1 r2 r3 : AttemptResult510)
    (h1s : r1.success = false) (h1c : r1.isCorruption = true)
    (h2s : r2.success = false) (h2c : r2.isCorruption = true) :
    formatsUsed (run510
        (fun n => if n = 1 then r1 else if n = 2 then r2 else r3) req).trace =
      [req, "best[height<=720]", "best[height<=480]"] ∧
    ((480 : WithTop ℕ) ≤ heightCeiling req →
      heightCeiling (getFallbackFormat 2 req) ≤ heightCeiling req) := by
  constructor
  · by_cases hs3 : r3.success = true
    · simp [run510, run510Aux, h1s, h1c, h2s, h2c, hs3, formatsUsed_append,
        formatsUsed_inval, formatsUsed_cons_acquire, formatsUsed_cons_spawn,
        formatsUsed_nil, getFallbackFormat_one, getFallbackFormat_two]
    · have hs3' : r3.success = false := Bool.eq_false_iff.mpr hs3
      by_cases hr3 : (r3.isBotDetection || r3.isCorruption || r3.isTimeout) = true
      · simp [run510, run510Aux, h1s, h1c, h2s, h2c, hs3', hr3, formatsUsed_append,
          formatsUsed_inval, formatsUsed_cons_acquire, formatsUsed_cons_spawn,
          formatsUsed_nil, getFallbackFormat_one, getFallbackFormat_two]
      · have hr3' : (r3.isBotDetection || r3.isCorruption || r3.isTimeout) = false :=
          Bool.eq_false_iff.mpr hr3
        simp [run510, run510Aux, h1s, h1c, h2s, h2c, hs3', hr3', formatsUsed_append,
          formatsUsed_inval, formatsUsed_cons_acquire, formatsUsed_cons_spawn,
          formatsUsed_nil, getFallbackFormat_one, getFallbackFormat_two]
  · intro h
    rw [getFallbackFormat_two]
    have hc : heightCeiling "best[height<=480]" = ((480 : ℕ) : WithTop ℕ) := by decide
    rw [hc]
    exact h

/-- C7 witness: for the unrestricted request best, attempts use best,
720p, 480p and the attempt-3 ceiling is below attempt 1's. -/
theorem c7_fallback_ladder_amended_witness :
    formatsUsed (run510
        (fun n => if n = 1 then corruptionResult510
          else if n = 2 then corruptionResult510 else successResult510)
        "best").trace = ["best", "best[height<=720]", "best[height<=480]"] ∧
    heightCeiling (getFallbackFormat 2 "best") ≤ heightCeiling "best" := by
  have h := c7_fallback_ladder_amended "best" corruptionResult510
    corruptionResult510 successResult510 (by decide) (by decide) (by decide) (by decide)
  exact ⟨h.1, h.2 (by decide)⟩

/-- c5FragmentSc500 injects a fragment error on every v5.0.0 attempt, so
all three retries are used up. -/
def c5FragmentSc500 : ℕ → Attempt500 := fun _ =>
  { stderr := []
    result := { success := false, error := "Fragment download error - please retry" } }

/-- c5BotSc500 injects bot detection on every v5.0.0 attempt. -/
def c5BotSc500 : ℕ → Attempt500 := fun _ =>
  { stderr := []
    result := { success := false, error := "Bot detection", isBotDetection := true } }

/-- C5 (counterexample): when the v5.0.0 orchestrator exhausts its 3
retries on fragment errors it answers with HTTP 500 — a server-error
status, not the success-level status the claim asserts for the
retry-exhausted error response. -/
theorem c5_exhausted_retries_use_500 :
    (post500 rlEmpty "ip" 0 true c5FragmentSc500 "dl").attempts = 3 ∧
    (post500 rlEmpty "ip" 0 true c5FragmentSc500 "dl").status = 500 ∧
    ¬ ((post500 rlEmpty "ip" 0 true c5FragmentSc500 "dl").status < 400) := by
  refine ⟨by decide, by decide, by decide⟩

/-- C5 (amended): only the v5.3.0 streaming route's fatal-error handler
answers with a success-level status (200) carrying a structured JSON
failure body (success false, the error text, a suggestion, and an
X-Error marker) to keep the hosting gateway from substituting its own
error page; the buffered orchestrators answer exhausted retries with 403
after bot detection and 500 otherwise. -/
theorem c5_success_status_only_in_streaming_route :
    (∀ msg : String,
      (streamPost true (some msg) true).status = 200 ∧
      (streamPost true (some msg) true).bodySuccess = some false ∧
      (streamPost true (some msg) true).errorBody = some msg ∧
      (streamPost true (some msg) true).suggestion =
        some "Try a lower quality format or wait a moment" ∧
      (streamPost true (some msg) true).xError = true) ∧
    (post500 rlEmpty "ip" 0 true c5BotSc500 "dl").status = 403 ∧
    (post500 rlEmpty "ip" 0 true c5FragmentSc500 "dl2").status = 500 := by
  refine ⟨?_, by decide, by decide⟩
  intro msg
  refine ⟨?_, ?_, ?_, ?_, ?_⟩ <;> simp [streamPost]

/-- c9Map tracks a single download with a live process. -/
def c9Map : ActiveMap := fun k =>
  if k = "dl1" then some { hasProcess := true } else none

/-- C9 (counterexample): cancelling a tracked download sends only
SIGTERM; no SIGKILL escalation exists anywhere in the cleanup path, so
the claim's grace-window escalation to a forceful kill is false — even
for a process that never exits, the only signal ever sent is SIGTERM. -/
theorem c9_no_sigkill_escalation :
    signalsSent ((deleteRoute c9Map (some "dl1")).1.effects) = ["SIGTERM"] ∧
    ¬ ("SIGKILL" ∈ signalsSent ((deleteRoute c9Map (some "dl1")).1.effects)) := by
  refine ⟨by decide, by decide⟩

/-- helper: signalsSent distributes over append. -/
theorem signalsSent_append (a b : List CleanupEff) :
    signalsSent (a ++ b) = signalsSent a ++ signalsSent b := by
  simp [signalsSent]

/-- helper: every signal the cleanup path sends is SIGTERM. -/
theorem signalsSent_cleanup (m : ActiveMap) (id : String) :
    ∀ s ∈ signalsSent (cleanupDownload m id).2, s = "SIGTERM" := by
  intro s hs
  cases hm : m id with
  | none =>
    rw [cleanupDownload] at hs
    simp [hm, signalsSent] at hs
  | some d =>
    obtain ⟨hp, hk, hi, cp, cfe⟩ := d
    rw [cleanupDownload] at hs
    simp only [hm] at hs
    cases cp <;> cases hp <;> cases hk <;> cases hi <;> cases cfe <;>
      simp [signalsSent] at hs
    all_goals exact hs

/-- C9 (amended): the DELETE handler answers success true exactly when a
non-empty id is supplied and tracked; in that case the tracked live
process is sent SIGTERM (never a SIGKILL — there is no escalation), the
entry is removed and the progress entry is cleared; otherwise it
answers 404 and leaves the table unchanged. -/
theorem c9_delete_cancellation (m : ActiveMap) (idOpt : Option String) :
    ((deleteRoute m idOpt).1.success = true ↔
      ∃ id, idOpt = some id ∧ id ≠ "" ∧ (m id).isSome = true) ∧
    ((deleteRoute m idOpt).1.success = false →
      (deleteRoute m idOpt).1.status = 404 ∧ (deleteRoute m idOpt).2 = m) ∧
    (∀ (id : String) (d : ActiveEntry), idOpt = some id → id ≠ "" → m id = some d →
      (deleteRoute m idOpt).1.status = 200 ∧
      (d.hasProcess = true → d.processKilled = false →
        CleanupEff.killSignal "SIGTERM" ∈ (deleteRoute m idOpt).1.effects) ∧
      CleanupEff.dropEntry id ∈ (deleteRoute m idOpt).1.effects ∧
      CleanupEff.clearProg id ∈ (deleteRoute m idOpt).1.effects ∧
      (deleteRoute m idOpt).2 id = none ∧
      ¬ ("SIGKILL" ∈ signalsSent ((deleteRoute m idOpt).1.effects))) := by
  refine ⟨?_, ?_, ?_⟩
  · constructor
    · intro h
      match idOpt with
      | none => simp [deleteRoute] at h
      | some id =>
        by_cases hc : id ≠ "" ∧ (m id).isSome = true
        · exact ⟨id, rfl, hc.1, hc.2⟩
        · rw [deleteRoute, if_neg hc] at h
          exact absurd h (by simp)
    · rintro ⟨id, rfl, hne, hsome⟩
      rw [deleteRoute, if_pos ⟨hne, hsome⟩]
  · intro h
    match idOpt with
    | none => exact ⟨rfl, rfl⟩
    | some id =>
      by_cases hc : id ≠ "" ∧ (m id).isSome = true
      · rw [deleteRoute, if_pos hc] at h
        exact absurd h (by simp)
      · rw [deleteRoute, if_neg hc]
        exact ⟨rfl, rfl⟩
  · intro id d hid hne hd
    subst hid
    have hc : id ≠ "" ∧ (m id).isSome = true := ⟨hne, by simp [hd]⟩
    have hdr : deleteRoute m (some id) =
        ({ status := 200, success := true, effects := (cleanupDownload m id).2 },
          (cleanupDownload m id).1) := by
      rw [deleteRoute, if_pos hc]
    rw [hdr]
    have hcd1 : (cleanupDownload m id).1 id = none := by
      rw [cleanupDownload]
      simp [hd]
    refine ⟨rfl, ?_, ?_, ?_, hcd1, ?_⟩
    · intro hp hk
      rw [cleanupDownload]
      simp [hd, hp, hk]
    · rw [cleanupDownload]
      simp [hd]
    · rw [cleanupDownload]
      simp [hd]
    · intro hmem
      have := signalsSent_cleanup m id _ hmem
      simp at this

/-- C9 witness: a tracked id is cancelled with success and SIGTERM, a
missing id yields 404. -/
theorem c9_delete_cancellation_witness :
    (deleteRoute c9Map (some "dl1")).1.success = true ∧
    CleanupEff.killSignal "SIGTERM" ∈ (deleteRoute c9Map (some "dl1")).1.effects ∧
    (deleteRoute c9Map (some "other")).1.status = 404 := by
  refine ⟨?_, ?_, ?_⟩
  · exact (c9_delete_cancellation c9Map (some "dl1")).1.mpr
      ⟨"dl1", rfl, by decide, by decide⟩
  · exact ((c9_delete_cancellation c9Map (some "dl1")).2.2 "dl1"
      { hasProcess := true } rfl (by decide) (by decide)).2.1 rfl rfl
  · exact ((c9_delete_cancellation c9Map (some "other")).2.1 (by decide)).1

/-- cacheServes says when getCachedCookies answers from the cache: no
forced refresh, a valid and fresh cache, and a cached temp file still on
disk. -/
def cacheServes (st : CookiesCacheSt) (forceRefresh : Bool) (now : ℕ)
    (cachedFileExists : Bool) : Bool :=
  st.tempPath.isSome &&
    (!forceRefresh && isCookiesCacheValid st now && cachedFileExists)

/-- cacheFetchFails says which outcomes take the v5.3.0 getCachedCookies
fetch into its catch block. -/
def cacheFetchFails (o : FetchOutcome) : Bool :=
  match o with
  | .throwErr _ => true
  | .reply status content => status ≠ 200 || !v53CacheValidOk content

/-- helper: on a failing outcome the fetch tail of getCachedCookies
returns the synthesized consent fallback and marks the cache valid. -/
theorem getCachedCookiesFetch_fail (now : ℕ) (o : FetchOutcome) (fp fbp : String)
    (h : cacheFetchFails o = true) :
    getCachedCookies.getCachedCookiesFetch now o fp fbp =
      ({ content := generateConsentCookies (now / 1000), tempPath := fbp,
         fromCache := false, usedFallback := true },
       { content := generateConsentCookies (now / 1000), lastFetch := now,
         tempPath := some fbp, isValid := true }) := by
  cases o with
  | throwErr msg => rfl
  | reply status content =>
    by_cases hst : status = 200
    · have hv : v53CacheValidOk content = false := by
        simp [cacheFetchFails, hst] at h
        exact h
      rw [getCachedCookies.getCachedCookiesFetch]
      simp [hst, hv]
    · rw [getCachedCookies.getCachedCookiesFetch]
      simp [hst]

/-- C2: credential acquisition never raises: fetchFreshCookies always
returns a result holding a temp cookie-file path, and on every failing
outcome (thrown network error or timeout, non-200 status, or a failed
format validation) it returns the synthesized fallback consent-cookie
file with usedFallback true; likewise getCachedCookies, whenever it
cannot serve from cache and the fetch fails, returns the synthesized
consent fallback with usedFallback true and keeps the cache marked
valid. -/
theorem c2_cookie_fallback_never_raises
    (o : FetchOutcome) (fp fbp : String) (st : CookiesCacheSt)
    (fr : Bool) (now : ℕ) (cfe : Bool) :
    ((fetchFreshCookies o fp fbp).1.tempPath.isSome = true) ∧
    (fetchFails o = true →
      (fetchFreshCookies o fp fbp).1.success = false ∧
      (fetchFreshCookies o fp fbp).1.tempPath = some fbp ∧
      (fetchFreshCookies o fp fbp).1.usedFallback = true ∧
      (fetchFreshCookies o fp fbp).2 = ⟨fbp, fallbackCookiesContent⟩) ∧
    (cacheServes st fr now cfe = false → cacheFetchFails o = true →
      (getCachedCookies st fr now cfe o fp fbp).1.usedFallback = true ∧
      (getCachedCookies st fr now cfe o fp fbp).1.tempPath = fbp ∧
      (getCachedCookies st fr now cfe o fp fbp).1.content =
        generateConsentCookies (now / 1000) ∧
      (getCachedCookies st fr now cfe o fp fbp).2.isValid = true) := by
  refine ⟨?_, ?_, ?_⟩
  · cases o with
    | throwErr msg => simp [fetchFreshCookies]
    | reply status content =>
      by_cases hst : status = 200
      · by_cases hh : cookiesHeaderOk content
        · by_cases hd : cookiesDomainOk content
          · simp [fetchFreshCookies, hst, hh, hd]
          · simp [fetchFreshCookies, hst, hh, Bool.eq_false_iff.mpr hd]
        · simp [fetchFreshCookies, hst, Bool.eq_false_iff.mpr hh]
      · simp [fetchFreshCookies, hst]
  · intro hfail
    cases o with
    | throwErr msg => simp [fetchFreshCookies]
    | reply status content =>
      by_cases hst : status = 200
      · by_cases hh : cookiesHeaderOk content
        · by_cases hd : cookiesDomainOk content
          · simp [fetchFails, hst, hh, hd] at hfail
          · simp [fetchFreshCookies, hst, hh, Bool.eq_false_iff.mpr hd]
        · simp [fetchFreshCookies, hst, Bool.eq_false_iff.mpr hh]
      · simp [fetchFreshCookies, hst]
  · intro hserve hfail
    have hfetch := getCachedCookiesFetch_fail now o fp fbp hfail
    cases hp : st.tempPath with
    | none =>
      rw [getCachedCookies]
      simp [hp, hfetch]
    | some p =>
      have hcond : (!fr && isCookiesCacheValid st now && cfe) = false := by
        simp only [cacheServes, hp] at hserve
        simpa using hserve
      rw [getCachedCookies]
      simp [hp, hcond, hfetch]

/-- C2 witness: a thrown network error yields the fallback bundle from
both acquisition functions. -/
theorem c2_cookie_fallback_witness :
    (fetchFreshCookies (FetchOutcome.throwErr "Network error: ETIMEDOUT")
        "fresh.txt" "fb.txt").1.usedFallback = true ∧
    (fetchFreshCookies (FetchOutcome.throwErr "Network error: ETIMEDOUT")
        "fresh.txt" "fb.txt").2 = ⟨"fb.txt", fallbackCookiesContent⟩ ∧
    (getCachedCookies {} false 0 false
        (FetchOutcome.throwErr "Network error: ETIMEDOUT")
        "fresh.txt" "fb.txt").1.usedFallback = true := by
  have h := c2_cookie_fallback_never_raises
    (FetchOutcome.throwErr "Network error: ETIMEDOUT") "fresh.txt" "fb.txt"
    {} false 0 false
  exact ⟨(h.2.1 (by decide)).2.2.1, (h.2.1 (by decide)).2.2.2,
    (h.2.2 (by decide) (by decide)).1⟩

/-- helper: membership in a conditionally empty list. -/
theorem mem_ite_nil {α : Type} (a : α) (c : Prop) [Decidable c] (l : List α) :
    (a ∈ (if c then l else [])) ↔ (c ∧ a ∈ l) := by
  split <;> simp_all

/-- C6: credentials reach the extractor only as a cookie-file path: both
argument builders emit the --cookies flag exactly when a path is
supplied and the file exists, and neither ever emits an --add-header
argument whose value is a Cookie: header.  The hypotheses only rule out
the degenerate case of a caller-supplied string that is itself the
literal --cookies. -/
theorem c6_cookies_only_via_file
    (url formatId outputPath : String) (cookiePath : Option String)
    (cfe : Bool) (ext : String) (hasVideo needsMerge : Bool) (ua : String)
    (hua : ua ∈ USER_AGENTS)
    (h1 : url ≠ "--cookies") (h2 : formatId ≠ "--cookies")
    (h3 : outputPath ≠ "--cookies") (h4 : ext ≠ "--cookies") :
    (("--cookies" ∈ buildSafeYtDlpArgs url formatId outputPath cookiePath cfe
        ext hasVideo needsMerge) ↔ (∃ p, cookiePath = some p ∧ cfe = true)) ∧
    noCookieHeaderArg (buildSafeYtDlpArgs url formatId outputPath cookiePath cfe
        ext hasVideo needsMerge) = true ∧
    (("--cookies" ∈ getAntiBotArgs ua cookiePath cfe) ↔
      (∃ p, cookiePath = some p ∧ cfe = true)) ∧
    noCookieHeaderArg (getAntiBotArgs ua cookiePath cfe) = true := by
  have hua' : ua ≠ "--cookies" := fun heq => absurd (heq ▸ hua) (by decide)
  have hwm : ("--cookies" : String) ≠ (if ext = "webm" then "webm" else "mp4") := by
    split <;> simp
  have s1 : strStarts "-f" "Cookie:" = false := by decide
  have s2 : strStarts "-o" "Cookie:" = false := by decide
  have s3 : strStarts "--no-playlist" "Cookie:" = false := by decide
  have s4 : strStarts "--merge-output-format" "Cookie:" = false := by decide
  have s5 : strStarts "-x" "Cookie:" = false := by decide
  have s6 : strStarts "--audio-quality" "Cookie:" = false := by decide
  have s7 : strStarts "--embed-metadata" "Cookie:" = false := by decide
  have s8 : strStarts "--referer" "Cookie:" = false := by decide
  have s9 : strStarts "--add-header" "Cookie:" = false := by decide
  have s10 : strStarts "Accept-Language: en-US,en;q=0.9" "Cookie:" = false := by
    decide
  have s11 : strStarts "Accept: text/html,application/xhtml+xml,application/xml;q=0.9,image/webp,*/*;q=0.8" "Cookie:" = false := by
    decide
  refine ⟨?_, ?_, ?_, ?_⟩
  · rcases cookiePath with _ | p
    · simp [buildSafeYtDlpArgs, mem_ite_nil, Ne.symm h1, Ne.symm h2, Ne.symm h3,
        Ne.symm h4, hwm]
    · cases cfe
      · simp [buildSafeYtDlpArgs, mem_ite_nil, Ne.symm h1, Ne.symm h2, Ne.symm h3,
          Ne.symm h4, hwm]
      · simp [buildSafeYtDlpArgs, mem_ite_nil]
  · rcases cookiePath with _ | p <;> cases cfe <;> cases needsMerge <;>
      cases hasVideo <;> by_cases hmp : ext = "mp3" <;> by_cases hm4 : ext = "m4a" <;>
      simp [buildSafeYtDlpArgs, noCookieHeaderArg, hmp, hm4,
        s1, s2, s3, s4, s5, s6, s7]
  · rcases cookiePath with _ | p
    · simp [getAntiBotArgs, Ne.symm hua']
    · cases cfe
      · simp [getAntiBotArgs, Ne.symm hua']
      · simp [getAntiBotArgs]
  · rcases cookiePath with _ | p <;> cases cfe <;>
      simp [getAntiBotArgs, noCookieHeaderArg, s8, s9, s10, s11]

/-- C6 witness: a concrete invocation with an existing cookie file
carries the --cookies flag, and a concrete invocation without one does
not; neither emits a Cookie: header argument. -/
theorem c6_cookies_only_via_file_witness :
    ("--cookies" ∈ buildSafeYtDlpArgs "https://www.youtube.com/watch?v=abc"
      "best" "/tmp/out.mp4" (some "/tmp/c.txt") true "mp4" true false) ∧
    noCookieHeaderArg (getAntiBotArgs
      "Mozilla/5.0 (X11; Linux x86_64) AppleWebKit/537.36 (KHTML, like Gecko) Chrome/120.0.0.0 Safari/537.36"
      none false) = true := by
  have h := c6_cookies_only_via_file "https://www.youtube.com/watch?v=abc"
    "best" "/tmp/out.mp4" (some "/tmp/c.txt") true "mp4" true false
    "Mozilla/5.0 (X11; Linux x86_64) AppleWebKit/537.36 (KHTML, like Gecko) Chrome/120.0.0.0 Safari/537.36"
    (by decide) (by decide) (by decide) (by decide) (by decide)
  refine ⟨h.1.mpr ⟨"/tmp/c.txt", rfl, rfl⟩, ?_⟩
  have h2 := c6_cookies_only_via_file "https://www.youtube.com/watch?v=abc"
    "best" "/tmp/out.mp4" none false "mp4" true false
    "Mozilla/5.0 (X11; Linux x86_64) AppleWebKit/537.36 (KHTML, like Gecko) Chrome/120.0.0.0 Safari/537.36"
    (by decide) (by decide) (by decide) (by decide) (by decide)
  exact h2.2.2.2

/-- helper: with an in-window record of count k, successive calls within
the window answer true exactly while the count is below the limit. -/
theorem rlRun_within (ip : String) (rt : ℕ) :
    ∀ (ts : List ℕ) (st : RateState) (k : ℕ),
      st ip = some ⟨k, rt⟩ → 1 ≤ k → k ≤ RATE_LIMIT →
      (∀ t ∈ ts, t ≤ rt) →
      (rlRun st ip ts).1 =
        (List.range ts.length).map fun i => decide (k + i < RATE_LIMIT) := by
  intro ts
  induction ts with
  | nil =>
    intro st k hst h1 h10 hts
    simp [rlRun]
  | cons t ts ih =>
    intro st k hst h1 h10 hts
    have htle : t ≤ rt := hts t (by simp)
    rw [List.length_cons, List.range_succ_eq_map, List.map_cons, List.map_map]
    by_cases hk : RATE_LIMIT ≤ k
    · have hcall : checkRateLimit st ip t = (false, st) := by
        simp [checkRateLimit, hst, Nat.not_lt.mpr htle, hk]
      rw [rlRun]
      rw [hcall]
      have htail := ih st k hst h1 h10 (fun t' ht' => hts t' (by simp [ht']))
      rw [htail]
      have hhead : decide (k + 0 < RATE_LIMIT) = false :=
        decide_eq_false (by omega)
      rw [hhead]
      refine congrArg _ (List.map_congr_left fun i _ => ?_)
      simp only [Function.comp]
      exact decide_eq_decide.mpr (by omega)
    · have hklt : k < RATE_LIMIT := Nat.not_le.mp hk
      have hcall : checkRateLimit st ip t =
          (true, fun k' => if k' = ip then some ⟨k + 1, rt⟩ else st k') := by
        simp [checkRateLimit, hst, Nat.not_lt.mpr htle, hk]
      rw [rlRun]
      rw [hcall]
      have htail := ih (fun k' => if k' = ip then some ⟨k + 1, rt⟩ else st k')
        (k + 1) (by simp) (by omega) (by omega)
        (fun t' ht' => hts t' (by simp [ht']))
      rw [htail]
      have hhead : decide (k + 0 < RATE_LIMIT) = true :=
        decide_eq_true (by omega)
      rw [hhead]
      refine congrArg _ (List.map_congr_left fun i _ => ?_)
      simp only [Function.comp]
      exact decide_eq_decide.mpr (by omega)

/-- C8: starting with no record for the ip, of any sequence of calls
whose later calls all fall within the 60-second window opened by the
first call, exactly the first 10 answer true and every further call
answers false; and a rejected rate-limit check makes the v5.0.0
download route answer 429 with no subprocess spawned. -/
theorem c8_rate_limit_window (st : RateState) (ip : String) (t0 : ℕ)
    (ts : List ℕ) (h0 : st ip = none)
    (hts : ∀ t ∈ ts, t ≤ t0 + RATE_WINDOW)
    (rl2 : RateState) (now : ℕ) (validOk : Bool) (sc : ℕ → Attempt500)
    (cid : String) (hrej : (checkRateLimit rl2 ip now).1 = false) :
    (rlRun st ip (t0 :: ts)).1 =
      (List.range (ts.length + 1)).map (fun i => decide (i < RATE_LIMIT)) ∧
    (post500 rl2 ip now validOk sc cid).status = 429 ∧
    spawnCount (post500 rl2 ip now validOk sc cid).trace = 0 := by
  refine ⟨?_, ?_, ?_⟩
  · have hcall : checkRateLimit st ip t0 =
        (true, fun k' => if k' = ip then some ⟨1, t0 + RATE_WINDOW⟩ else st k') := by
      simp [checkRateLimit, h0]
    rw [List.range_succ_eq_map, List.map_cons, List.map_map, rlRun, hcall]
    have htail := rlRun_within ip (t0 + RATE_WINDOW) ts
      (fun k' => if k' = ip then some ⟨1, t0 + RATE_WINDOW⟩ else st k') 1
      (by simp) (by omega) (by decide) hts
    rw [htail]
    have hhead : decide ((0 : ℕ) < RATE_LIMIT) = true := by decide
    rw [hhead]
    refine congrArg _ (List.map_congr_left fun i _ => ?_)
    simp only [Function.comp]
    exact decide_eq_decide.mpr (by omega)
  · simp [post500, hrej]
  · simp [post500, hrej, spawnCount]

/-- C8 witness: 11 calls inside one window from a fresh state answer
true ten times then false, and a rejected check yields a 429 with no
spawn. -/
theorem c8_rate_limit_window_witness :
    (rlRun rlEmpty "ip" [0, 1, 2, 3, 4, 5, 6, 7, 8, 9, 10]).1 =
      [true, true, true, true, true, true, true, true, true, true, false] ∧
    (post500 (fun _ => some ⟨10, 60000⟩) "ip" 5 true c3TimeoutSc500 "w").status
      = 429 ∧
    spawnCount (post500 (fun _ => some ⟨10, 60000⟩) "ip" 5 true c3TimeoutSc500
      "w").trace = 0 := by
  have h := c8_rate_limit_window rlEmpty "ip" 0 [1, 2, 3, 4, 5, 6, 7, 8, 9, 10]
    rfl (by decide) (fun _ => some ⟨10, 60000⟩) 5 true c3TimeoutSc500 "w"
    (by decide)
  refine ⟨?_, h.2.1, h.2.2⟩
  rw [h.1]
  decide

end YtDl
